import Mathlib

/-!
A shallow embedding of the gfx graphics abstraction layer (Rust, OpenGL-backed)
and proofs about its state cache, resource tables, pipeline compilation and
draw-call logic.

Native GL handles (glow::Buffer, glow::Texture, glow::Framebuffer,
glow::Program, glow::UniformLocation) are opaque ids; they are modelled as Nat.
Calls into the native GL context are recorded as an explicit trace of
NativeCall values. Fallible operations (Rust panics, assertion failures, out of
bounds indexing, Option::unwrap on None) are modelled by returning none.
-/

namespace Gfx

namespace glow

def ARRAY_BUFFER : Nat := 0x8892

def ELEMENT_ARRAY_BUFFER : Nat := 0x8893

def TRIANGLES : Nat := 4

def LINES : Nat := 1

def FLOAT : Nat := 0x1406

def UNSIGNED_BYTE : Nat := 0x1401

def UNSIGNED_SHORT : Nat := 0x1403

def UNSIGNED_INT : Nat := 0x1405

def STATIC_DRAW : Nat := 0x88E4

def DYNAMIC_DRAW : Nat := 0x88E8

def STREAM_DRAW : Nat := 0x88E0

end glow

def MAX_VERTEX_ATTRIBUTES : Nat := 16

def MAX_SHADERSTAGE_IMAGES : Nat := 12

/-- ColorMask from lib.rs: (bool, bool, bool, bool). -/
abbrev ColorMask := Bool × Bool × Bool × Bool

/-- Trace entries for calls issued to the native GL context. -/
inductive NativeCall where
  | bindBuffer (target : Nat) (buffer : Option Nat)
  | bufferDataSize (target : Nat) (size : Nat)
  | bufferSubData (target : Nat) (offset : Nat) (size : Nat)
  | activeTexture (unit : Nat)
  | bindTexture (target : Nat) (texture : Option Nat)
  | deleteFramebuffer (fb : Nat)
  | deleteTexture (t : Nat)
  | deleteBuffer (b : Nat)
  | uniform (loc : Nat) (componentCount : Nat)
  deriving DecidableEq, Repr

/-- pipeline.rs CullFace. -/
inductive CullFace where
  | Nothing
  | Front
  | Back
  deriving DecidableEq, Repr

/-- pipeline.rs FrontFaceOrder. -/
inductive FrontFaceOrder where
  | Clockwise
  | CounterClockwise
  deriving DecidableEq, Repr

/-- pipeline.rs Comparison. -/
inductive Comparison where
  | Never
  | Less
  | LessOrEqual
  | Greater
  | GreaterOrEqual
  | Equal
  | NotEqual
  | Always
  deriving DecidableEq, Repr

/-- pipeline.rs Equation. -/
inductive Equation where
  | Add
  | Subtract
  | ReverseSubtract
  deriving DecidableEq, Repr

/-- pipeline.rs BlendValue. -/
inductive BlendValue where
  | SourceColor
  | SourceAlpha
  | DestinationColor
  | DestinationAlpha
  deriving DecidableEq, Repr

/-- pipeline.rs BlendFactor. -/
inductive BlendFactor where
  | Zero
  | One
  | Value (v : BlendValue)
  | OneMinusValue (v : BlendValue)
  | SourceAlphaSaturate
  deriving DecidableEq, Repr

/-- pipeline.rs BlendState. -/
structure BlendState where
  equation : Equation
  sfactor : BlendFactor
  dfactor : BlendFactor
  deriving DecidableEq, Repr

/-- pipeline.rs StencilOp. -/
inductive StencilOp where
  | Keep
  | Zero
  | Replace
  | IncrementClamp
  | DecrementClamp
  | Invert
  | IncrementWrap
  | DecrementWrap
  deriving DecidableEq, Repr

/-- pipeline.rs CompareFunc. -/
inductive CompareFunc where
  | Always
  | Never
  | Less
  | Equal
  | LessOrEqual
  | Greater
  | NotEqual
  | GreaterOrEqual
  deriving DecidableEq, Repr

/-- pipeline.rs StencilFaceState. -/
structure StencilFaceState where
  fail_op : StencilOp
  depth_fail_op : StencilOp
  pass_op : StencilOp
  test_func : CompareFunc
  test_ref : Int
  test_mask : Nat
  write_mask : Nat
  deriving DecidableEq, Repr

/-- pipeline.rs StencilState. -/
structure StencilState where
  front : StencilFaceState
  back : StencilFaceState
  deriving DecidableEq, Repr

/-- cache.rs VertexAttributeInternal. -/
structure VertexAttributeInternal where
  attr_loc : Nat
  size : Int
  type_ : Nat
  offset : Int
  stride : Int
  buffer_index : Nat
  divisor : Int
  deriving DecidableEq, Repr

/-- cache.rs CachedAttribute. The source calls the first field attribute,
which is a keyword here, so it is named attr. -/
structure CachedAttribute where
  attr : VertexAttributeInternal
  gl_vbuf : Option Nat
  deriving DecidableEq, Repr

/-- cache.rs GlCache. Native handles are Nat; fixed-size arrays are lists. -/
structure GlCache where
  stored_index_buffer : Option Nat
  stored_index_type : Option Nat
  stored_vertex_buffer : Option Nat
  stored_texture : Option Nat
  index_buffer : Option Nat
  index_type : Option Nat
  vertex_buffer : Option Nat
  textures : List (Option Nat)
  cur_pipeline : Option Nat
  color_blend : Option BlendState
  alpha_blend : Option BlendState
  stencil : Option StencilState
  color_write : ColorMask
  cull_face : CullFace
  attributes : List (Option CachedAttribute)
  deriving DecidableEq, Repr

/-- The GlCache the context starts with (state.rs, QuadContext::new). -/
def GlCache.fresh : GlCache where
  stored_index_buffer := none
  stored_index_type := none
  stored_vertex_buffer := none
  stored_texture := none
  index_buffer := none
  index_type := none
  vertex_buffer := none
  textures := List.replicate MAX_SHADERSTAGE_IMAGES none
  cur_pipeline := none
  color_blend := none
  alpha_blend := none
  stencil := none
  color_write := (true, true, true, true)
  cull_face := CullFace.Nothing
  attributes := List.replicate MAX_VERTEX_ATTRIBUTES none

/-- cache.rs GlCache::bind_buffer. Returns the new cache together with the
native calls issued. -/
def GlCache.bind_buffer (c : GlCache) (target : Nat) (buffer : Option Nat)
    (index_type : Option Nat) : GlCache × List NativeCall :=
  if target = glow.ARRAY_BUFFER then
    if c.vertex_buffer ≠ buffer then
      ({ c with vertex_buffer := buffer }, [NativeCall.bindBuffer target buffer])
    else
      (c, [])
  else
    let (c', calls) :=
      if c.index_buffer ≠ buffer then
        ({ c with index_buffer := buffer }, [NativeCall.bindBuffer target buffer])
      else
        (c, [])
    ({ c' with index_type := index_type }, calls)

/-- cache.rs GlCache::store_buffer_binding. -/
def GlCache.store_buffer_binding (c : GlCache) (target : Nat) : GlCache :=
  if target = glow.ARRAY_BUFFER then
    { c with stored_vertex_buffer := c.vertex_buffer }
  else
    { c with stored_index_buffer := c.index_buffer, stored_index_type := c.index_type }

/-- cache.rs GlCache::restore_buffer_binding. -/
def GlCache.restore_buffer_binding (c : GlCache) (target : Nat) : GlCache × List NativeCall :=
  if target = glow.ARRAY_BUFFER then
    if c.stored_vertex_buffer.isSome then
      let (c', calls) := c.bind_buffer target c.stored_vertex_buffer none
      ({ c' with stored_vertex_buffer := none }, calls)
    else
      (c, [])
  else if c.stored_index_buffer.isSome then
    let (c', calls) := c.bind_buffer target c.stored_index_buffer c.stored_index_type
    ({ c' with stored_index_buffer := none }, calls)
  else
    (c, [])

/-- cache.rs GlCache::bind_texture. -/
def GlCache.bind_texture (c : GlCache) (slot_index : Nat) (texture : Option Nat) :
    GlCache × List NativeCall :=
  let pre := [NativeCall.activeTexture slot_index]
  if c.textures.getD slot_index none ≠ texture then
    ({ c with textures := c.textures.set slot_index texture },
      pre ++ [NativeCall.bindTexture 0 texture])
  else
    (c, pre)

/-- cache.rs GlCache::store_texture_binding. -/
def GlCache.store_texture_binding (c : GlCache) (slot_index : Nat) : GlCache :=
  { c with stored_texture := c.textures.getD slot_index none }

/-- cache.rs GlCache::restore_texture_binding. -/
def GlCache.restore_texture_binding (c : GlCache) (slot_index : Nat) :
    GlCache × List NativeCall :=
  c.bind_texture slot_index c.stored_texture

/-- cache.rs GlCache::clear_buffer_bindings. -/
def GlCache.clear_buffer_bindings (c : GlCache) : GlCache × List NativeCall :=
  let (c1, calls1) := c.bind_buffer glow.ARRAY_BUFFER none none
  let c1 := { c1 with vertex_buffer := none }
  let (c2, calls2) := c1.bind_buffer glow.ELEMENT_ARRAY_BUFFER none none
  ({ c2 with index_buffer := none }, calls1 ++ calls2)

/-- cache.rs GlCache::clear_vertex_attributes. -/
def GlCache.clear_vertex_attributes (c : GlCache) : GlCache :=
  { c with attributes := List.replicate c.attributes.length none }

/-- One bind_buffer request: target, buffer handle, index element type. -/
def BindRequest := Nat × Option Nat × Option Nat

/-- Run a sequence of bind_buffer calls against a cache, counting the native
bind calls they issue. -/
def runBindBuffer (c : GlCache) : List BindRequest → GlCache × Nat
  | [] => (c, 0)
  | (t, b, it) :: rest =>
    let (c', calls) := c.bind_buffer t b it
    let (c'', n) := runBindBuffer c' rest
    (c'', calls.length + n)

/-- The count of native binds the spec predicts for claim C1: the number of
calls whose full (target, buffer, index_type) tuple differs from the previous
call with the same target (a first call for a target counts as differing).
lastV and lastI remember the previous (buffer, index_type) pair per target. -/
def specTupleChangeCount (lastV lastI : Option (Option Nat × Option Nat)) :
    List BindRequest → Nat
  | [] => 0
  | (t, b, it) :: rest =>
    if t = glow.ARRAY_BUFFER then
      (if lastV = some (b, it) then 0 else 1) + specTupleChangeCount (some (b, it)) lastI rest
    else
      (if lastI = some (b, it) then 0 else 1) + specTupleChangeCount lastV (some (b, it)) rest

/-- The count of native binds the code actually issues: the number of calls
whose buffer handle differs from the currently cached one for that target
(the index element type never participates in the comparison). -/
def bufferChangeCount (lastV lastI : Option Nat) : List BindRequest → Nat
  | [] => 0
  | (t, b, _) :: rest =>
    if t = glow.ARRAY_BUFFER then
      (if lastV = b then 0 else 1) + bufferChangeCount b lastI rest
    else
      (if lastI = b then 0 else 1) + bufferChangeCount lastV b rest

/-- buffer.rs VertexStep. -/
inductive VertexStep where
  | PerVertex
  | PerInstance
  deriving DecidableEq, Repr

/-- buffer.rs BufferLayout. -/
structure BufferLayout where
  stride : Int
  step_func : VertexStep
  step_rate : Int
  deriving DecidableEq, Repr

/-- pipeline.rs VertexFormat. -/
inductive VertexFormat where
  | Float1
  | Float2
  | Float3
  | Float4
  | Byte1
  | Byte2
  | Byte3
  | Byte4
  | Short1
  | Short2
  | Short3
  | Short4
  | Int1
  | Int2
  | Int3
  | Int4
  | Mat4
  deriving DecidableEq, Repr

/-- pipeline.rs VertexFormat::components. -/
def VertexFormat.components : VertexFormat → Int
  | .Float1 => 1
  | .Float2 => 2
  | .Float3 => 3
  | .Float4 => 4
  | .Byte1 => 1
  | .Byte2 => 2
  | .Byte3 => 3
  | .Byte4 => 4
  | .Short1 => 1
  | .Short2 => 2
  | .Short3 => 3
  | .Short4 => 4
  | .Int1 => 1
  | .Int2 => 2
  | .Int3 => 3
  | .Int4 => 4
  | .Mat4 => 16

/-- pipeline.rs VertexFormat::size_bytes. -/
def VertexFormat.size_bytes : VertexFormat → Int
  | .Float1 => 4
  | .Float2 => 2 * 4
  | .Float3 => 3 * 4
  | .Float4 => 4 * 4
  | .Byte1 => 1
  | .Byte2 => 2
  | .Byte3 => 3
  | .Byte4 => 4
  | .Short1 => 2
  | .Short2 => 2 * 2
  | .Short3 => 3 * 2
  | .Short4 => 4 * 2
  | .Int1 => 4
  | .Int2 => 2 * 4
  | .Int3 => 3 * 4
  | .Int4 => 4 * 4
  | .Mat4 => 16 * 4

/-- pipeline.rs VertexFormat::type_. -/
def VertexFormat.type_ : VertexFormat → Nat
  | .Float1 => glow.FLOAT
  | .Float2 => glow.FLOAT
  | .Float3 => glow.FLOAT
  | .Float4 => glow.FLOAT
  | .Byte1 => glow.UNSIGNED_BYTE
  | .Byte2 => glow.UNSIGNED_BYTE
  | .Byte3 => glow.UNSIGNED_BYTE
  | .Byte4 => glow.UNSIGNED_BYTE
  | .Short1 => glow.UNSIGNED_SHORT
  | .Short2 => glow.UNSIGNED_SHORT
  | .Short3 => glow.UNSIGNED_SHORT
  | .Short4 => glow.UNSIGNED_SHORT
  | .Int1 => glow.UNSIGNED_INT
  | .Int2 => glow.UNSIGNED_INT
  | .Int3 => glow.UNSIGNED_INT
  | .Int4 => glow.UNSIGNED_INT
  | .Mat4 => glow.FLOAT

/-- pipeline.rs VertexAttribute. -/
structure VertexAttribute where
  name : String
  format : VertexFormat
  buffer_index : Nat
  deriving DecidableEq, Repr

/-- pipeline.rs PrimitiveType. -/
inductive PrimitiveType where
  | Triangles
  | Lines
  deriving DecidableEq, Repr

/-- pipeline.rs PrimitiveType discriminant values (glow::TRIANGLES, glow::LINES). -/
def PrimitiveType.toGl : PrimitiveType → Nat
  | .Triangles => glow.TRIANGLES
  | .Lines => glow.LINES

/-- pipeline.rs PipelineParams. -/
structure PipelineParams where
  cull_face : CullFace
  front_face_order : FrontFaceOrder
  depth_test : Comparison
  depth_write : Bool
  depth_write_offset : Option (Int × Int)
  color_blend : Option BlendState
  alpha_blend : Option BlendState
  stencil_test : Option StencilState
  color_write : ColorMask
  primitive_type : PrimitiveType
  deriving DecidableEq, Repr

/-- pipeline.rs impl Default for PipelineParams. -/
def PipelineParams.default : PipelineParams where
  cull_face := CullFace.Nothing
  front_face_order := FrontFaceOrder.CounterClockwise
  depth_test := Comparison.Always
  depth_write := false
  depth_write_offset := none
  color_blend := none
  alpha_blend := none
  stencil_test := none
  color_write := (true, true, true, true)
  primitive_type := PrimitiveType.Triangles

/-- pipeline.rs PipelineInternal::new, local struct BufferCacheData. -/
structure BufferCacheData where
  stride : Int
  offset : Int
  deriving DecidableEq, Repr

/-- The first loop of PipelineInternal::new: accumulate per-buffer strides.
An out-of-range buffer_index (Rust index panic) or a stride above 255
(the WebGL 1 assert) yields none. -/
def computeStrides (buffer_layout : List BufferLayout) (cache : List BufferCacheData) :
    List VertexAttribute → Option (List BufferCacheData)
  | [] => some cache
  | a :: rest =>
    match buffer_layout.get? a.buffer_index, cache.get? a.buffer_index with
    | some layout, some cd =>
      let newStride := if layout.stride = 0 then cd.stride + a.format.size_bytes else layout.stride
      if newStride ≤ 255 then
        computeStrides buffer_layout (cache.set a.buffer_index { cd with stride := newStride }) rest
      else
        none
    | _, _ => none

/-- The inner loop of the second pass of PipelineInternal::new: write
attributes_count consecutive slots for one source attribute. i is the current
iteration index, rem the remaining iteration count; offset advances by
size_bytes every iteration whether or not the location resolved. A resolved
location at or beyond the table length (the Rust assert) yields none. -/
def writeAttrs (loc : Option Nat) (fmt : VertexFormat) (divisor stride : Int)
    (buffer_index : Nat) :
    Nat → Nat → Int → List (Option VertexAttributeInternal) →
      Option (Int × List (Option VertexAttributeInternal))
  | _, 0, offset, layout => some (offset, layout)
  | i, rem + 1, offset, layout =>
    match loc with
    | none =>
      writeAttrs loc fmt divisor stride buffer_index (i + 1) rem (offset + fmt.size_bytes) layout
    | some l =>
      let al := l + i
      if al < layout.length then
        let attr : VertexAttributeInternal :=
          { attr_loc := al
            size := fmt.components
            type_ := fmt.type_
            offset := offset
            stride := stride
            buffer_index := buffer_index
            divisor := divisor }
        writeAttrs loc fmt divisor stride buffer_index (i + 1) rem (offset + fmt.size_bytes)
          (layout.set al (some attr))
      else
        none

/-- The instance divisor computed in the second loop of PipelineInternal::new:
0 for a PerVertex buffer, the configured step rate otherwise. -/
def divisorOf (bl : BufferLayout) : Int :=
  match bl.step_func with
  | .PerVertex => 0
  | _ => bl.step_rate

/-- The second loop of PipelineInternal::new: process each source attribute,
expanding Mat4 into 4 Float4 slots, accumulating per-buffer byte offsets. -/
def processAttrs (attrLocF : String → Option Nat) (buffer_layout : List BufferLayout) :
    List BufferCacheData → List (Option VertexAttributeInternal) → List VertexAttribute →
      Option (List BufferCacheData × List (Option VertexAttributeInternal))
  | cache, layout, [] => some (cache, layout)
  | cache, layout, a :: rest =>
    match cache.get? a.buffer_index, buffer_layout.get? a.buffer_index with
    | some buffer_data, some bl =>
      let divisor : Int := divisorOf bl
      let (fmt, attributes_count) :=
        if a.format = VertexFormat.Mat4 then (VertexFormat.Float4, 4) else (a.format, 1)
      match writeAttrs (attrLocF a.name) fmt divisor buffer_data.stride a.buffer_index
          0 attributes_count buffer_data.offset layout with
      | some (offset', layout') =>
        processAttrs attrLocF buffer_layout
          (cache.set a.buffer_index { buffer_data with offset := offset' }) layout' rest
      | none => none
    | _, _ => none

/-- The slot capacity one source attribute consumes in the per-slot table. -/
def slotCount (f : VertexFormat) : Nat :=
  if f = VertexFormat.Mat4 then 4 else 1

/-- pipeline.rs PipelineInternal::new, restricted to computing the per-slot
layout table. The native attribute-location lookup gl.get_attrib_location is
modelled by the function attrLocF. -/
def pipelineNew (attrLocF : String → Option Nat) (buffer_layout : List BufferLayout)
    (attributes : List VertexAttribute) : Option (List (Option VertexAttributeInternal)) :=
  match computeStrides buffer_layout
      (List.replicate buffer_layout.length { stride := 0, offset := 0 }) attributes with
  | none => none
  | some cache =>
    let attributes_len := (attributes.map (fun a => slotCount a.format)).sum
    match processAttrs attrLocF buffer_layout cache
        (List.replicate attributes_len none) attributes with
    | some (_, layout) => some layout
    | none => none

/-- pipeline.rs PipelineInternal. -/
structure PipelineInternal where
  layout : List (Option VertexAttributeInternal)
  shader : Nat
  params : PipelineParams
  deriving DecidableEq, Repr

/-- uniform.rs UniformType. -/
inductive UniformType where
  | Float1
  | Float2
  | Float3
  | Float4
  | Int1
  | Int2
  | Int3
  | Int4
  | Mat4
  deriving DecidableEq, Repr

/-- uniform.rs UniformType::size (byte size). -/
def UniformType.size : UniformType → Nat
  | .Float1 => 4
  | .Float2 => 8
  | .Float3 => 12
  | .Float4 => 16
  | .Int1 => 4
  | .Int2 => 8
  | .Int3 => 12
  | .Int4 => 16
  | .Mat4 => 64

/-- shader.rs ShaderUniform. -/
structure ShaderUniform where
  gl_loc : Option Nat
  uniform_type : UniformType
  array_count : Nat
  deriving DecidableEq, Repr

/-- shader.rs ShaderImage. -/
structure ShaderImage where
  gl_loc : Option Nat
  deriving DecidableEq, Repr

/-- shader.rs ShaderInternal. -/
structure ShaderInternal where
  program : Nat
  images : List ShaderImage
  uniforms : List ShaderUniform
  deriving DecidableEq, Repr

/-- shader.rs ShaderType. -/
inductive ShaderType where
  | Vertex
  | Fragment
  deriving DecidableEq, Repr

/-- shader.rs ShaderError. -/
inductive ShaderError where
  | CompilationError (shader_type : ShaderType) (error_message : String)
  | LinkError (msg : String)
  deriving DecidableEq, Repr

/-- texture.rs TextureFormat. -/
inductive TextureFormat where
  | RGB8
  | RGBA8
  | Depth
  | Alpha
  deriving DecidableEq, Repr

/-- texture.rs TextureWrap. -/
inductive TextureWrap where
  | Repeat
  | Mirror
  | Clamp
  deriving DecidableEq, Repr

/-- texture.rs FilterMode. -/
inductive FilterMode where
  | Linear
  | Nearest
  deriving DecidableEq, Repr

/-- texture.rs TextureParams. -/
structure TextureParams where
  format : TextureFormat
  wrap : TextureWrap
  filter : FilterMode
  width : Nat
  height : Nat
  deriving DecidableEq, Repr

/-- texture.rs Texture. -/
structure Texture where
  raw : Option Nat
  params : TextureParams
  deriving DecidableEq, Repr

/-- buffer.rs BufferType. -/
inductive BufferType where
  | VertexBuffer
  | IndexBuffer
  deriving DecidableEq, Repr

/-- buffer.rs BufferType discriminants: the GL binding targets. -/
def BufferType.toGl : BufferType → Nat
  | .VertexBuffer => glow.ARRAY_BUFFER
  | .IndexBuffer => glow.ELEMENT_ARRAY_BUFFER

/-- buffer.rs BufferUsage. -/
inductive BufferUsage where
  | Immutable
  | Dynamic
  | Stream
  deriving DecidableEq, Repr

/-- buffer.rs BufferSource. The Slice variant erases the pointed-at data to
its Arg metadata (byte size, element size, is_slice flag), which is all the
embedded operations consume. -/
inductive BufferSource where
  | Slice (size : Nat) (element_size : Nat) (is_slice : Bool)
  | Empty (size : Nat) (element_size : Nat)
  deriving DecidableEq, Repr

/-- buffer.rs Buffer. -/
structure Buffer where
  gl_buf : Option Nat
  buffer_type : BufferType
  size : Nat
  index_type : Option Nat
  deriving DecidableEq, Repr

/-- pass.rs RenderPassInternal. -/
structure RenderPassInternal where
  gl_fb : Option Nat
  texture : Nat
  depth_texture : Option Nat
  deriving DecidableEq, Repr

/-- state.rs Features. -/
structure Features where
  instancing : Bool
  deriving DecidableEq, Repr

/-- state.rs QuadContext: resource tables, the state cache and the feature
set. The native glow::Context itself is replaced by the NativeCall traces the
operations return. -/
structure QuadContext where
  shaders : List ShaderInternal
  pipelines : List PipelineInternal
  passes : List RenderPassInternal
  buffers : List Buffer
  textures : List Texture
  default_framebuffer : Option Nat
  cache : GlCache
  features : Features
  width : Int
  height : Int
  deriving DecidableEq, Repr

/-- state.rs QuadContext::new_shader. The native compile-and-link performed by
ShaderInternal::new is external; its outcome is the compiled argument. On
success the record is appended and the handle is the previous length. -/
def QuadContext.new_shader (ctx : QuadContext) (compiled : Except ShaderError ShaderInternal) :
    Except ShaderError (QuadContext × Nat) :=
  match compiled with
  | .error e => .error e
  | .ok s => .ok ({ ctx with shaders := ctx.shaders ++ [s] }, ctx.shaders.length)

/-- state.rs QuadContext::new_texture. Texture::new is native GL work whose
result is the tex argument (a record with a fresh raw handle); new_texture
appends it and returns TextureId(len - 1). -/
def QuadContext.new_texture (ctx : QuadContext) (tex : Texture) : QuadContext × Nat :=
  ({ ctx with textures := ctx.textures ++ [tex] }, ctx.textures.length)

/-- state.rs QuadContext::delete_texture: takes the slot raw handle in place
(leaving none) and deletes it natively; an out-of-range id or an already
empty handle (unwrap on None) is a panic, modelled as none. -/
def QuadContext.delete_texture (ctx : QuadContext) (texture : Nat) :
    Option (QuadContext × List NativeCall) :=
  match ctx.textures.get? texture with
  | none => none
  | some t =>
    match t.raw with
    | none => none
    | some raw =>
      some ({ ctx with textures := ctx.textures.set texture { t with raw := none } },
        [NativeCall.deleteTexture raw])

/-- state.rs QuadContext::new_render_pass. The native framebuffer creation and
attachment calls of RenderPassInternal::new are external; gl_fb is the fresh
framebuffer handle. The source indexes textures with the color (and optional
depth) ids, so an out-of-range id panics: none. -/
def QuadContext.new_render_pass (ctx : QuadContext) (color_img : Nat)
    (depth_img : Option Nat) (gl_fb : Option Nat) : Option (QuadContext × Nat) :=
  match ctx.textures.get? color_img with
  | none => none
  | some _ =>
    match depth_img with
    | some d =>
      match ctx.textures.get? d with
      | none => none
      | some _ =>
        some ({ ctx with passes := ctx.passes ++
          [{ gl_fb := gl_fb, texture := color_img, depth_texture := depth_img }] },
          ctx.passes.length)
    | none =>
      some ({ ctx with passes := ctx.passes ++
        [{ gl_fb := gl_fb, texture := color_img, depth_texture := depth_img }] },
        ctx.passes.length)

/-- state.rs QuadContext::delete_render_pass: takes and deletes the native
framebuffer, then deletes the color texture and, if present, the depth
texture. Any unwrap on an empty handle panics: none. -/
def QuadContext.delete_render_pass (ctx : QuadContext) (pass : Nat) :
    Option (QuadContext × List NativeCall) :=
  match ctx.passes.get? pass with
  | none => none
  | some p =>
    match p.gl_fb with
    | none => none
    | some fb =>
      let ctx1 := { ctx with passes := ctx.passes.set pass { p with gl_fb := none } }
      match ctx1.delete_texture p.texture with
      | none => none
      | some (ctx2, calls2) =>
        match p.depth_texture with
        | none => some (ctx2, NativeCall.deleteFramebuffer fb :: calls2)
        | some dt =>
          match ctx2.delete_texture dt with
          | none => none
          | some (ctx3, calls3) =>
            some (ctx3, NativeCall.deleteFramebuffer fb :: calls2 ++ calls3)

/-- state.rs QuadContext::new_buffer. The fresh native buffer handle returned
by gl.create_buffer().ok() is the gl_buf argument. An index buffer whose
element size is not 1, 2 or 4 panics; a Slice source with is_slice false
trips the debug assert. -/
def QuadContext.new_buffer (ctx : QuadContext) (type_ : BufferType) (_usage : BufferUsage)
    (data : BufferSource) (gl_buf : Option Nat) :
    Option (QuadContext × Nat × List NativeCall) :=
  let (size, element_size, slice_ok) :=
    match data with
    | .Slice s e isl => (s, e, isl)
    | .Empty s e => (s, e, true)
  let index_type? : Option (Option Nat) :=
    match type_ with
    | .IndexBuffer =>
      if element_size = 1 ∨ element_size = 2 ∨ element_size = 4 then some (some element_size)
      else none
    | .VertexBuffer => some none
  match index_type? with
  | none => none
  | some index_type =>
    if slice_ok then
      let gl_target := type_.toGl
      let c1 := ctx.cache.store_buffer_binding gl_target
      let (c2, calls1) := c1.bind_buffer gl_target gl_buf index_type
      let dataCalls :=
        [NativeCall.bufferDataSize gl_target size] ++
          match data with
          | .Slice s _ _ => [NativeCall.bufferSubData gl_target 0 s]
          | .Empty _ _ => []
      let (c3, calls2) := c2.restore_buffer_binding gl_target
      let buffer : Buffer :=
        { gl_buf := gl_buf, buffer_type := type_, size := size, index_type := index_type }
      some ({ ctx with cache := c3, buffers := ctx.buffers ++ [buffer] },
        ctx.buffers.length, calls1 ++ dataCalls ++ calls2)
    else
      none

/-- state.rs QuadContext::buffer_update. Panics (none) when the source is not
a slice, the handle is out of range, an index buffer gets a mismatched element
size, or the payload exceeds the allocated size; otherwise re-uploads through
a store/bind/restore cache bracket, leaving the buffers table untouched. -/
def QuadContext.buffer_update (ctx : QuadContext) (buffer : Nat) (data : BufferSource) :
    Option (QuadContext × List NativeCall) :=
  match data with
  | .Empty _ _ => none
  | .Slice dsize delem is_sl =>
    if is_sl then
      match ctx.buffers.get? buffer with
      | none => none
      | some buf =>
        let indexOk : Bool :=
          match buf.buffer_type, buf.index_type with
          | .IndexBuffer, some it => decide (delem = it)
          | .IndexBuffer, none => false
          | .VertexBuffer, _ => true
        if indexOk then
          if dsize ≤ buf.size then
            let gl_target := buf.buffer_type.toGl
            let c1 := ctx.cache.store_buffer_binding gl_target
            let (c2, calls1) := c1.bind_buffer gl_target buf.gl_buf buf.index_type
            let (c3, calls2) := c2.restore_buffer_binding gl_target
            some ({ ctx with cache := c3 },
              calls1 ++ [NativeCall.bufferSubData gl_target 0 dsize] ++ calls2)
          else
            none
        else
          none
    else
      none

/-- state.rs QuadContext::delete_buffer: takes the slot native handle in place
(leaving none), deletes it, then clears the cache buffer bindings and vertex
attributes. -/
def QuadContext.delete_buffer (ctx : QuadContext) (buffer : Nat) :
    Option (QuadContext × List NativeCall) :=
  match ctx.buffers.get? buffer with
  | none => none
  | some b =>
    match b.gl_buf with
    | none => none
    | some raw =>
      let ctx1 := { ctx with buffers := ctx.buffers.set buffer { b with gl_buf := none } }
      let (c1, calls1) := ctx1.cache.clear_buffer_bindings
      let c2 := c1.clear_vertex_attributes
      some ({ ctx1 with cache := c2 }, NativeCall.deleteBuffer raw :: calls1)

/-- state.rs QuadContext::new_pipeline_with_params. PipelineInternal::new is
pure except for the attribute-location lookups on the shader program, modelled
by attrLocF. Indexing shaders with an invalid handle panics: none. -/
def QuadContext.new_pipeline_with_params (ctx : QuadContext)
    (attrLocF : String → Option Nat) (buffer_layout : List BufferLayout)
    (attributes : List VertexAttribute) (shader : Nat) (params : PipelineParams) :
    Option (QuadContext × Nat) :=
  match ctx.shaders.get? shader with
  | none => none
  | some _ =>
    match pipelineNew attrLocF buffer_layout attributes with
    | none => none
    | some layout =>
      some ({ ctx with pipelines := ctx.pipelines ++
        [{ layout := layout, shader := shader, params := params }] },
        ctx.pipelines.length)

/-- One native uniform upload for a slot whose location resolved, as issued by
apply_uniforms_from_bytes: the component count is the element count of the
slice passed to the gl.uniform call (1..4 scalars or 16 matrix entries),
which is uniform_type.size() / 4. -/
def uniformCallOf (u : ShaderUniform) : Option NativeCall :=
  u.gl_loc.map (fun l => NativeCall.uniform l (u.uniform_type.size / 4))

/-- The in-bounds condition of the component reads f[..n] and i[..n] issued
for a slot whose uniform location resolved; a slot with no location reads
nothing. -/
def readCheck (size offset : Nat) (u : ShaderUniform) : Bool :=
  match u.gl_loc with
  | some _ => decide (offset + u.uniform_type.size ≤ size)
  | none => true

/-- The loop of state.rs QuadContext::apply_uniforms_from_bytes. For each slot
in declared order, the source runs:
  assert(offset <= size - uniform_type.size() / 4)  with usize arithmetic,
then casts the byte slice starting at offset to f32 and i32 slices (a panic
when offset is past the end or the remaining length is not a multiple of 4),
and, only when the location resolved, reads size()/4 components from it (a
panic when fewer remain); offset then advances by size() * array_count either
way. Every panicking outcome, the failed assert included, is none. With
checked usize subtraction the assert condition is offset + size()/4 <= size.
Returns the final offset and the native calls. -/
def applyUniformsLoop (size : Nat) : Nat → List ShaderUniform →
    Option (Nat × List NativeCall)
  | offset, [] => some (offset, [])
  | offset, u :: rest =>
    if offset + u.uniform_type.size / 4 ≤ size then
      if offset ≤ size ∧ (size - offset) % 4 = 0 then
        if readCheck size offset u then
          match applyUniformsLoop size (offset + u.uniform_type.size * u.array_count) rest with
          | some (off', calls) =>
            some (off', (uniformCallOf u).toList ++ calls)
          | none => none
        else
          none
      else
        none
    else
      none

/-- state.rs QuadContext::apply_uniforms_from_bytes, for a context whose
applied pipeline resolves to shader su. The byte buffer is abstracted to its
length, which in apply_uniforms equals the size argument. -/
def applyUniformsFromBytes (uniforms : List ShaderUniform) (size : Nat) :
    Option (Nat × List NativeCall) :=
  applyUniformsLoop size 0 uniforms

/-- The cumulative byte size the shader uniform slot list requires: each slot
consumes uniform_type.size() * array_count bytes. -/
def requiredUniformBytes (uniforms : List ShaderUniform) : Nat :=
  (uniforms.map (fun u => u.uniform_type.size * u.array_count)).sum

/-- Outcome of state.rs QuadContext::draw. -/
inductive DrawResult where
  | assertNoPipeline
  | droppedNoInstancing
  | native (mode : Nat) (first count instance_count : Int)
  deriving DecidableEq, Repr

/-- state.rs QuadContext::draw: asserts a pipeline is applied; silently drops
the call (after a diagnostic print) when instancing is unsupported and
instance_count is not 1; otherwise issues one gl.draw_arrays_instanced with
mode glow::TRIANGLES. -/
def QuadContext.draw (ctx : QuadContext) (first count instance_count : Int) : DrawResult :=
  if ctx.cache.cur_pipeline.isNone then
    DrawResult.assertNoPipeline
  else if ¬ ctx.features.instancing ∧ instance_count ≠ 1 then
    DrawResult.droppedNoInstancing
  else
    DrawResult.native glow.TRIANGLES first count instance_count

/-- The per-slot success condition of apply_uniforms_from_bytes at a given
running offset: the assert (offset + size()/4 <= size under checked usize
subtraction), the byte-slice casts staying in bounds and 4-byte aligned in
length, and, for a resolved location, the size()/4 component read fitting. -/
def slotChecksOk (size offset : Nat) (u : ShaderUniform) : Bool :=
  decide (offset + u.uniform_type.size / 4 ≤ size) &&
    (decide (offset ≤ size) && decide ((size - offset) % 4 = 0)) &&
    readCheck size offset u

/-! Concrete fixtures used to instantiate the theorems below. -/

/-- A three-call bind sequence on the index-buffer target: all three calls
carry the same buffer handle while the index type changes on the second and
third call. -/
def cexC1 : List BindRequest :=
  [(glow.ELEMENT_ARRAY_BUFFER, some 1, some 2),
   (glow.ELEMENT_ARRAY_BUFFER, some 1, some 4),
   (glow.ELEMENT_ARRAY_BUFFER, some 1, some 2)]

/-- A single-slot uniform list: one Float1 uniform with array_count 4 whose
location resolved, so it requires 16 bytes in total. -/
def cexUniforms : List ShaderUniform :=
  [{ gl_loc := some 0, uniform_type := UniformType.Float1, array_count := 4 }]

/-- A two-slot uniform list: a Float2 slot optimized out by the compiler (no
location) followed by a live Float1 array of length 2. -/
def usW : List ShaderUniform :=
  [{ gl_loc := none, uniform_type := UniformType.Float2, array_count := 1 },
   { gl_loc := some 3, uniform_type := UniformType.Float1, array_count := 2 }]

/-- Texture params for fixtures. -/
def texParams0 : TextureParams :=
  { format := TextureFormat.RGBA8, wrap := TextureWrap.Clamp, filter := FilterMode.Nearest,
    width := 4, height := 4 }

/-- A live texture record. -/
def tex0 : Texture := { raw := some 7, params := texParams0 }

/-- A second live texture record. -/
def tex1 : Texture := { raw := some 8, params := texParams0 }

/-- An empty context with a fresh cache and instancing available. -/
def ctx0 : QuadContext :=
  { shaders := [], pipelines := [], passes := [], buffers := [], textures := [],
    default_framebuffer := none, cache := GlCache.fresh,
    features := { instancing := true }, width := 0, height := 0 }

/-- A pipeline record whose primitive_type is Lines. -/
def pipLines : PipelineInternal :=
  { layout := [], shader := 0,
    params := { PipelineParams.default with primitive_type := PrimitiveType.Lines } }

/-- A context with a Lines pipeline applied. -/
def ctxPip : QuadContext :=
  { ctx0 with
    pipelines := [pipLines],
    cache := { GlCache.fresh with cur_pipeline := some 0 } }

/-- The same context on a GPU without instancing support. -/
def ctxNoInst : QuadContext := { ctxPip with features := { instancing := false } }

/-- A cache with live vertex and index bindings. -/
def cacheW : GlCache :=
  { GlCache.fresh with vertex_buffer := some 5, index_buffer := some 3, index_type := some 2 }

/-- An 8-byte vertex buffer record. -/
def buf0 : Buffer :=
  { gl_buf := some 1, buffer_type := BufferType.VertexBuffer, size := 8, index_type := none }

/-- A context holding buf0. -/
def ctxB : QuadContext := { ctx0 with buffers := [buf0] }

/-- A context with one render pass over tex0 and no depth attachment. -/
def ctxA : QuadContext :=
  { ctx0 with
    textures := [tex0],
    passes := [{ gl_fb := some 5, texture := 0, depth_texture := none }] }

/-- A context with one render pass over tex0 with depth attachment tex1. -/
def ctxD : QuadContext :=
  { ctx0 with
    textures := [tex0, tex1],
    passes := [{ gl_fb := some 5, texture := 0, depth_texture := some 1 }] }

/-- A shader record with no images and no uniforms. -/
def sh0 : ShaderInternal := { program := 1, images := [], uniforms := [] }

/-- A context holding sh0. -/
def ctxS : QuadContext := { ctx0 with shaders := [sh0] }

/-- Attribute-location lookup resolving the single name m to location 0. -/
def witF : String → Option Nat := fun n => if n = "m" then some 0 else none

/-- One packed (stride 0) per-vertex buffer layout. -/
def witBl : List BufferLayout :=
  [{ stride := 0, step_func := VertexStep.PerVertex, step_rate := 1 }]

/-- One Mat4 attribute named m on buffer 0. -/
def witAttrs : List VertexAttribute :=
  [{ name := "m", format := VertexFormat.Mat4, buffer_index := 0 }]

/-! Theorems. -/

/-- C7: a bind_buffer call on the index-buffer binding point always sets the
cached index element type to the supplied index_type, even when the supplied
buffer equals the cached index buffer, in which case no native bind call is
issued either. -/
theorem bind_buffer_always_sets_index_type (c : GlCache) (buffer index_type : Option Nat) :
    ((c.bind_buffer glow.ELEMENT_ARRAY_BUFFER buffer index_type).1).index_type = index_type ∧
    (c.index_buffer = buffer →
      (c.bind_buffer glow.ELEMENT_ARRAY_BUFFER buffer index_type).2 = [] ∧
      (c.bind_buffer glow.ELEMENT_ARRAY_BUFFER buffer index_type).1 =
        { c with index_type := index_type }) := by
  have ht : glow.ELEMENT_ARRAY_BUFFER ≠ glow.ARRAY_BUFFER := by decide
  constructor
  · simp only [GlCache.bind_buffer, if_neg ht]
  · intro hb
    simp [GlCache.bind_buffer, if_neg ht, hb]

/-- Witness for bind_buffer_always_sets_index_type at the fresh cache with a
matching (none) buffer. -/
theorem bind_buffer_always_sets_index_type_witness :
    ((GlCache.fresh.bind_buffer glow.ELEMENT_ARRAY_BUFFER none (some 2)).1).index_type = some 2 ∧
    (GlCache.fresh.bind_buffer glow.ELEMENT_ARRAY_BUFFER none (some 2)).2 = [] :=
  ⟨(bind_buffer_always_sets_index_type GlCache.fresh none (some 2)).1,
   ((bind_buffer_always_sets_index_type GlCache.fresh none (some 2)).2 rfl).1⟩

/-- C5: draw fails the no-pipeline assertion when no pipeline is applied;
with a pipeline applied but instancing unsupported and instance_count not 1 it
is dropped with a diagnostic and no native draw; otherwise exactly one native
draw call is issued. -/
theorem draw_error_handling (ctx : QuadContext) (first count instance_count : Int) :
    (ctx.cache.cur_pipeline = none →
      ctx.draw first count instance_count = DrawResult.assertNoPipeline) ∧
    (ctx.cache.cur_pipeline.isSome → ctx.features.instancing = false → instance_count ≠ 1 →
      ctx.draw first count instance_count = DrawResult.droppedNoInstancing) ∧
    (ctx.cache.cur_pipeline.isSome → (ctx.features.instancing = true ∨ instance_count = 1) →
      ctx.draw first count instance_count =
        DrawResult.native glow.TRIANGLES first count instance_count) := by
  refine ⟨fun h => ?_, fun h hinst hic => ?_, fun h hok => ?_⟩
  · simp [QuadContext.draw, h]
  · rw [Option.isSome_iff_exists] at h
    obtain ⟨p, hp⟩ := h
    simp [QuadContext.draw, hp, hinst, hic]
  · rw [Option.isSome_iff_exists] at h
    obtain ⟨p, hp⟩ := h
    rcases hok with hi | h1
    · simp [QuadContext.draw, hp, hi]
    · simp [QuadContext.draw, hp, h1]

/-- Witness for draw_error_handling: an empty context asserts, a
non-instancing context drops an instanced draw, an instancing context draws. -/
theorem draw_error_handling_witness :
    ctx0.draw 0 3 1 = DrawResult.assertNoPipeline ∧
    ctxNoInst.draw 0 3 2 = DrawResult.droppedNoInstancing ∧
    ctxPip.draw 0 3 2 = DrawResult.native glow.TRIANGLES 0 3 2 :=
  ⟨(draw_error_handling ctx0 0 3 1).1 rfl,
   (draw_error_handling ctxNoInst 0 3 2).2.1 (by decide) rfl (by decide),
   (draw_error_handling ctxPip 0 3 2).2.2 (by decide) (Or.inl rfl)⟩

/-- C10: whenever draw issues a native draw call, its topology argument is
glow::TRIANGLES, whatever primitive_type the applied pipeline was created
with; pi ranges over every pipeline record, Lines pipelines included. -/
theorem draw_topology_always_triangles (ctx : QuadContext) (first count instance_count : Int)
    (p : Nat) ( pi : PipelineInternal)
    (hp : ctx.cache.cur_pipeline = some p)
    (_hpi : ctx.pipelines.get? p = some pi)
    (hok : ctx.features.instancing = true ∨ instance_count = 1) :
    ctx.draw first count instance_count =
      DrawResult.native PrimitiveType.Triangles.toGl first count instance_count := by
  rcases hok with hi | h1
  · simp [QuadContext.draw, hp, hi, PrimitiveType.toGl]
  · simp [QuadContext.draw, hp, h1, PrimitiveType.toGl]

/-- Witness for draw_topology_always_triangles on a pipeline whose
primitive_type is Lines: the native mode is still triangles. -/
theorem draw_topology_always_triangles_witness :
    ctxPip.draw 0 3 1 = DrawResult.native PrimitiveType.Triangles.toGl 0 3 1 :=
  draw_topology_always_triangles ctxPip 0 3 1 0 pipLines rfl rfl (Or.inl rfl)

/-- C2: store_buffer_binding immediately followed by restore_buffer_binding
(no intervening bind) leaves every recorded binding of the cache unchanged
(the vertex buffer, the index buffer and the index element type) and issues
no native call; and restore_buffer_binding is a no-op on the cache, issuing
no native call, when the stored slot for the target holds no captured
binding. -/
theorem store_restore_roundtrip (c : GlCache) (target : Nat) :
    (((c.store_buffer_binding target).restore_buffer_binding target).1.vertex_buffer =
        c.vertex_buffer ∧
      ((c.store_buffer_binding target).restore_buffer_binding target).1.index_buffer =
        c.index_buffer ∧
      ((c.store_buffer_binding target).restore_buffer_binding target).1.index_type =
        c.index_type ∧
      ((c.store_buffer_binding target).restore_buffer_binding target).2 = []) ∧
    ((if target = glow.ARRAY_BUFFER then c.stored_vertex_buffer else c.stored_index_buffer) =
        none →
      c.restore_buffer_binding target = (c, [])) := by
  constructor
  · by_cases ht : target = glow.ARRAY_BUFFER
    · cases hv : c.vertex_buffer <;>
        simp [GlCache.store_buffer_binding, GlCache.restore_buffer_binding,
          GlCache.bind_buffer, ht, hv]
    · cases hi : c.index_buffer <;>
        simp [GlCache.store_buffer_binding, GlCache.restore_buffer_binding,
          GlCache.bind_buffer, ht, hi]
  · intro hstored
    by_cases ht : target = glow.ARRAY_BUFFER <;>
      simp [ht] at hstored <;>
      simp [GlCache.restore_buffer_binding, ht, hstored]

/-- Witness for store_restore_roundtrip at a cache with live bindings, and
the no-op clause at the fresh cache, which has no stored binding. -/
theorem store_restore_roundtrip_witness :
    ((cacheW.store_buffer_binding glow.ELEMENT_ARRAY_BUFFER).restore_buffer_binding
        glow.ELEMENT_ARRAY_BUFFER).1.index_buffer = cacheW.index_buffer ∧
    GlCache.fresh.restore_buffer_binding glow.ELEMENT_ARRAY_BUFFER = (GlCache.fresh, []) :=
  ⟨(store_restore_roundtrip cacheW glow.ELEMENT_ARRAY_BUFFER).1.2.1,
   (store_restore_roundtrip GlCache.fresh glow.ELEMENT_ARRAY_BUFFER).2 (by decide)⟩

/-- C1, counterexample: on three index-target binds of one buffer handle
where only the index element type changes twice, the code issues 1 native
bind call while the tuple changed on 3 of the calls (2 of them not counting
the first): the number of native binds does not equal the number of calls
whose (target, buffer, index_type) tuple changed. -/
theorem bind_count_claim_counterexample :
    (runBindBuffer GlCache.fresh cexC1).2 = 1 ∧
    specTupleChangeCount none none cexC1 = 3 ∧
    (runBindBuffer GlCache.fresh cexC1).2 ≠ specTupleChangeCount none none cexC1 := by
  refine ⟨by decide, by decide, by decide⟩

/-- C1, amended: for every starting cache and every sequence of bind_buffer
calls, the number of native bind calls issued equals the number of calls
whose buffer handle differs from the cached handle for that target, i.e. from
the buffer of the previous call with the same target (the initial cache
contents standing in for a previous call at the start); the index element
type never participates in the comparison. -/
theorem bind_buffer_native_call_count (c : GlCache) (calls : List BindRequest) :
    (runBindBuffer c calls).2 = bufferChangeCount c.vertex_buffer c.index_buffer calls := by
  induction calls generalizing c with
  | nil => rfl
  | cons hd tl ih =>
    obtain ⟨t, b, it⟩ := hd
    by_cases ht : t = glow.ARRAY_BUFFER
    · by_cases hv : c.vertex_buffer = b
      · simp [runBindBuffer, bufferChangeCount, GlCache.bind_buffer, ht, hv, ih]
      · simp [runBindBuffer, bufferChangeCount, GlCache.bind_buffer, ht, hv, ih]
    · by_cases hi : c.index_buffer = b
      · simp [runBindBuffer, bufferChangeCount, GlCache.bind_buffer, ht, hi, ih]
      · simp [runBindBuffer, bufferChangeCount, GlCache.bind_buffer, ht, hi, ih]

/-- C6: for an existing buffer, buffer_update panics whenever the slice
payload byte size exceeds the recorded buffer size, and whenever it returns
(so in particular whenever the payload fits) the buffers table, and with it
the recorded size and every other field of the buffer record, is unchanged. -/
theorem buffer_update_size_guard (ctx : QuadContext) (id : Nat) (buf : Buffer)
    (dsize delem : Nat) (isl : Bool)
    (hbuf : ctx.buffers.get? id = some buf) :
    (buf.size < dsize → ctx.buffer_update id (BufferSource.Slice dsize delem isl) = none) ∧
    (∀ ctx' calls, ctx.buffer_update id (BufferSource.Slice dsize delem isl) =
        some (ctx', calls) → ctx'.buffers = ctx.buffers) := by
  have hbufE : ctx.buffers[id]? = some buf := by
    rw [← List.get?_eq_getElem?]; exact hbuf
  constructor
  · intro hlt
    have hle : ¬ dsize ≤ buf.size := by omega
    cases isl <;> simp [QuadContext.buffer_update, hbufE, hle]
  · intro ctx' calls h
    cases isl with
    | false => simp [QuadContext.buffer_update] at h
    | true =>
      unfold QuadContext.buffer_update at h
      dsimp only at h
      rw [if_pos rfl, hbuf] at h
      dsimp only at h
      repeat' split at h
      all_goals
        first
          | (simp only [Option.some.injEq, Prod.mk.injEq] at h
             obtain ⟨h1, -⟩ := h
             subst h1
             rfl)
          | simp at h

/-- Witness for buffer_update_size_guard on an 8-byte vertex buffer: a 9-byte
payload panics, a 4-byte payload succeeds and leaves the buffers table as it
was. -/
theorem buffer_update_size_guard_witness :
    ctxB.buffer_update 0 (BufferSource.Slice 9 4 true) = none ∧
    (ctxB.buffer_update 0 (BufferSource.Slice 4 4 true)).map (fun r => r.1.buffers) =
      some ctxB.buffers := by
  refine ⟨(buffer_update_size_guard ctxB 0 buf0 9 4 true rfl).1 (by decide), ?_⟩
  cases hres : ctxB.buffer_update 0 (BufferSource.Slice 4 4 true) with
  | none => exact absurd hres (by decide)
  | some r =>
    have := (buffer_update_size_guard ctxB 0 buf0 4 4 true rfl).2 r.1 r.2 (by rw [hres])
    simp [this]

/-- C8: delete_render_pass deletes the native framebuffer of the pass (the
slot keeping none), then the color texture native handle and, when a depth
texture is present, the depth texture native handle, clearing the raw handle
of each texture slot to none. -/
theorem delete_render_pass_deletes_attachments (ctx : QuadContext) (p : Nat)
    (pr : RenderPassInternal) (fb : Nat) (ct : Texture) (craw : Nat)
    (hp : ctx.passes.get? p = some pr)
    (hfb : pr.gl_fb = some fb)
    (hct : ctx.textures.get? pr.texture = some ct)
    (hcraw : ct.raw = some craw) :
    (pr.depth_texture = none →
      ctx.delete_render_pass p = some
        ({ ctx with
            passes := ctx.passes.set p { pr with gl_fb := none },
            textures := ctx.textures.set pr.texture { ct with raw := none } },
          [NativeCall.deleteFramebuffer fb, NativeCall.deleteTexture craw])) ∧
    (∀ dt dtex dtraw, pr.depth_texture = some dt → dt ≠ pr.texture →
      ctx.textures.get? dt = some dtex → dtex.raw = some dtraw →
      ctx.delete_render_pass p = some
        ({ ctx with
            passes := ctx.passes.set p { pr with gl_fb := none },
            textures := (ctx.textures.set pr.texture { ct with raw := none }).set dt
              { dtex with raw := none } },
          [NativeCall.deleteFramebuffer fb, NativeCall.deleteTexture craw,
            NativeCall.deleteTexture dtraw])) := by
  rw [List.get?_eq_getElem?] at hp hct
  constructor
  · intro hdt
    simp [QuadContext.delete_render_pass, QuadContext.delete_texture, hp, hfb, hct, hcraw, hdt]
  · intro dt dtex dtraw hdt hne hdtex hdtraw
    rw [List.get?_eq_getElem?] at hdtex
    have hget : (ctx.textures.set pr.texture { ct with raw := none })[dt]? = some dtex := by
      rw [List.getElem?_set_ne (fun h => hne h.symm)]
      exact hdtex
    simp [QuadContext.delete_render_pass, QuadContext.delete_texture, hp, hfb, hct, hcraw,
      hdt, hget, hdtraw]

/-- Witness for delete_render_pass_deletes_attachments: a pass without depth
and a pass with depth, on live textures. -/
theorem delete_render_pass_deletes_attachments_witness :
    ctxA.delete_render_pass 0 = some
      ({ ctxA with
          passes := ctxA.passes.set 0 { gl_fb := none, texture := 0, depth_texture := none },
          textures := ctxA.textures.set 0 { tex0 with raw := none } },
        [NativeCall.deleteFramebuffer 5, NativeCall.deleteTexture 7]) ∧
    ctxD.delete_render_pass 0 = some
      ({ ctxD with
          passes := ctxD.passes.set 0 { gl_fb := none, texture := 0, depth_texture := some 1 },
          textures := (ctxD.textures.set 0 { tex0 with raw := none }).set 1
            { tex1 with raw := none } },
        [NativeCall.deleteFramebuffer 5, NativeCall.deleteTexture 7,
          NativeCall.deleteTexture 8]) :=
  ⟨(delete_render_pass_deletes_attachments ctxA 0 _ 5 tex0 7 rfl rfl rfl rfl).1 rfl,
   (delete_render_pass_deletes_attachments ctxD 0 _ 5 tex0 7 rfl rfl rfl rfl).2
     1 tex1 8 rfl (by decide) rfl rfl⟩

/-- Characterization of the apply_uniforms_from_bytes loop from an arbitrary
starting offset: it succeeds iff every slot passes its per-slot checks at its
cumulative offset, and on success the final offset is the full cumulative
width of all slots while exactly the slots with a resolved location produce a
native uniform call, in declared order. -/
theorem applyUniformsLoop_spec (size : Nat) (us : List ShaderUniform) :
    ∀ offset,
      ((applyUniformsLoop size offset us).isSome ↔
        ∀ i u, us.get? i = some u →
          slotChecksOk size (offset + requiredUniformBytes (us.take i)) u = true) ∧
      (∀ off calls, applyUniformsLoop size offset us = some (off, calls) →
        off = offset + requiredUniformBytes us ∧ calls = us.filterMap uniformCallOf) := by
  induction us with
  | nil =>
    intro offset
    constructor
    · simp [applyUniformsLoop]
    · intro off calls h
      simp only [applyUniformsLoop, Option.some.injEq, Prod.mk.injEq] at h
      simp [requiredUniformBytes, ← h.1, ← h.2]
  | cons u rest ih =>
    intro offset
    by_cases h1 : offset + u.uniform_type.size / 4 ≤ size
    case neg =>
      constructor
      · refine iff_of_false (by simp [applyUniformsLoop, h1]) ?_
        intro hall
        have h0 := hall 0 u rfl
        simp [slotChecksOk, requiredUniformBytes, h1] at h0
      · intro off calls h
        simp [applyUniformsLoop, h1] at h
    case pos =>
    by_cases h2 : offset ≤ size ∧ (size - offset) % 4 = 0
    case neg =>
      constructor
      · refine iff_of_false (by simp [applyUniformsLoop, h1, h2]) ?_
        intro hall
        have h0 := hall 0 u rfl
        simp [slotChecksOk, requiredUniformBytes] at h0
        exact h2 ⟨by tauto, by tauto⟩
      · intro off calls h
        simp [applyUniformsLoop, h1, h2] at h
    case pos =>
    by_cases h3 : readCheck size offset u = true
    case neg =>
      constructor
      · refine iff_of_false (by simp [applyUniformsLoop, h1, h2, h3]) ?_
        intro hall
        have h0 := hall 0 u rfl
        simp [slotChecksOk, requiredUniformBytes, h3] at h0
      · intro off calls h
        simp [applyUniformsLoop, h1, h2, h3] at h
    case pos =>
    obtain ⟨ihIff, ihOut⟩ := ih (offset + u.uniform_type.size * u.array_count)
    constructor
    · constructor
      · intro hsome
        cases hrec : applyUniformsLoop size (offset + u.uniform_type.size * u.array_count)
            rest with
        | none =>
          rw [show applyUniformsLoop size offset (u :: rest) = none by
            simp [applyUniformsLoop, h1, h2, h3, hrec]] at hsome
          simp at hsome
        | some p =>
          have hrestAll := ihIff.1 (by simp [hrec])
          intro i u' hi
          match i, hi with
          | 0, hi =>
            have hu : u' = u := by simpa using hi.symm
            subst hu
            simp only [List.take_zero, requiredUniformBytes, List.map_nil, List.sum_nil,
              Nat.add_zero, slotChecksOk]
            simp [h1, h2.1, h2.2, h3]
          | i + 1, hi =>
            have := hrestAll i u' (by simpa using hi)
            simpa [List.take_succ_cons, requiredUniformBytes, Nat.add_assoc] using this
      · intro hall
        have hrest : (applyUniformsLoop size
            (offset + u.uniform_type.size * u.array_count) rest).isSome := by
          apply ihIff.2
          intro i u' hi
          have := hall (i + 1) u' (by simpa using hi)
          simpa [List.take_succ_cons, requiredUniformBytes, Nat.add_assoc] using this
        obtain ⟨p, hp⟩ := Option.isSome_iff_exists.mp hrest
        simp [applyUniformsLoop, h1, h2, h3, hp]
    · intro off calls h
      simp only [applyUniformsLoop, if_pos h1, if_pos h2, if_pos h3] at h
      cases hrec : applyUniformsLoop size (offset + u.uniform_type.size * u.array_count)
          rest with
      | none => rw [hrec] at h; simp at h
      | some p =>
        obtain ⟨off', calls'⟩ := p
        rw [hrec] at h
        simp only [Option.some.injEq, Prod.mk.injEq] at h
        obtain ⟨hoff, hcalls⟩ := h
        obtain ⟨hoff', hcalls'⟩ := ihOut off' calls' hrec
        constructor
        · rw [← hoff, hoff']
          simp [requiredUniformBytes, Nat.add_assoc]
        · rw [← hcalls, hcalls']
          cases hgl : u.gl_loc <;> simp [uniformCallOf, List.filterMap_cons, hgl]

/-- C3, counterexample: a single live Float1 slot with array_count 4 requires
16 cumulative bytes, yet apply_uniforms_from_bytes on a 4-byte buffer passes
its assertion (which only demands size()/4 = 1 byte headroom) and completes
without any fatal failure, issuing the uniform call. -/
theorem apply_uniforms_claim_counterexample :
    4 < requiredUniformBytes cexUniforms ∧
    applyUniformsFromBytes cexUniforms 4 = some (16, [NativeCall.uniform 0 1]) :=
  ⟨by decide, by decide⟩

/-- C3, amended: apply_uniforms_from_bytes fails fatally iff some slot fails
its per-slot checks at its cumulative offset, where the assertion only
requires offset + uniform_type.size()/4 <= size (not the full
size() * array_count width, so a buffer shorter than the cumulative
requirement can pass) and the byte-slice casts and component reads must stay
in bounds; slots whose location is none are skipped without a native uniform
call while the offset still advances by size() * array_count, so on success
the final offset is the cumulative requirement and the calls are exactly the
resolved slots in declared order. -/
theorem apply_uniforms_from_bytes_spec (us : List ShaderUniform) (size : Nat) :
    ((applyUniformsFromBytes us size).isSome ↔
      ∀ i u, us.get? i = some u →
        slotChecksOk size (requiredUniformBytes (us.take i)) u = true) ∧
    (∀ off calls, applyUniformsFromBytes us size = some (off, calls) →
      off = requiredUniformBytes us ∧ calls = us.filterMap uniformCallOf) := by
  have h := applyUniformsLoop_spec size us 0
  simpa [applyUniformsFromBytes] using h

/-- Witness for apply_uniforms_from_bytes_spec on a list with one optimized
out slot and one live slot in a 16-byte buffer. -/
theorem apply_uniforms_from_bytes_spec_witness :
    (16 : Nat) = requiredUniformBytes usW ∧
    [NativeCall.uniform 3 1] = usW.filterMap uniformCallOf :=
  (apply_uniforms_from_bytes_spec usW 16).2 16 [NativeCall.uniform 3 1] (by decide)

/-- C9: every create operation appends exactly one record to its resource
table and returns handle len-1, leaving every other table untouched; every
delete operation clears the native handle of its slot in place, without
changing any table length, so issued handles stay structurally valid indexes
and no operation renumbers other resources. -/
theorem resource_tables_append_and_clear (ctx : QuadContext) :
    (∀ s, ctx.new_shader (Except.ok s) =
      Except.ok ({ ctx with shaders := ctx.shaders ++ [s] }, ctx.shaders.length)) ∧
    (∀ tex, ctx.new_texture tex =
      ({ ctx with textures := ctx.textures ++ [tex] }, ctx.textures.length)) ∧
    (∀ ty us data glb ctx' id trace, ctx.new_buffer ty us data glb = some (ctx', id, trace) →
      (∃ rec, rec.gl_buf = glb ∧ ctx'.buffers = ctx.buffers ++ [rec]) ∧
      id = ctx.buffers.length ∧
      ctx'.shaders = ctx.shaders ∧ ctx'.pipelines = ctx.pipelines ∧
      ctx'.passes = ctx.passes ∧ ctx'.textures = ctx.textures) ∧
    (∀ ci ct fb, ctx.textures.get? ci = some ct →
      ctx.new_render_pass ci none fb = some
        ({ ctx with passes := ctx.passes ++
            [{ gl_fb := fb, texture := ci, depth_texture := none }] },
          ctx.passes.length)) ∧
    (∀ ci ct di dt fb, ctx.textures.get? ci = some ct → ctx.textures.get? di = some dt →
      ctx.new_render_pass ci (some di) fb = some
        ({ ctx with passes := ctx.passes ++
            [{ gl_fb := fb, texture := ci, depth_texture := some di }] },
          ctx.passes.length)) ∧
    (∀ f bl attrs sh shint params layout, ctx.shaders.get? sh = some shint →
      pipelineNew f bl attrs = some layout →
      ctx.new_pipeline_with_params f bl attrs sh params = some
        ({ ctx with pipelines := ctx.pipelines ++
            [{ layout := layout, shader := sh, params := params }] },
          ctx.pipelines.length)) ∧
    (∀ t old raw, ctx.textures.get? t = some old → old.raw = some raw →
      ctx.delete_texture t = some
        ({ ctx with textures := ctx.textures.set t { old with raw := none } },
          [NativeCall.deleteTexture raw]) ∧
      (ctx.textures.set t { old with raw := none }).length = ctx.textures.length) ∧
    (∀ b old raw, ctx.buffers.get? b = some old → old.gl_buf = some raw →
      ctx.delete_buffer b = some
        ({ ctx with
            buffers := ctx.buffers.set b { old with gl_buf := none },
            cache := (ctx.cache.clear_buffer_bindings).1.clear_vertex_attributes },
          NativeCall.deleteBuffer raw :: (ctx.cache.clear_buffer_bindings).2) ∧
      (ctx.buffers.set b { old with gl_buf := none }).length = ctx.buffers.length) ∧
    (∀ p old fb ct craw, ctx.passes.get? p = some old → old.gl_fb = some fb →
      ctx.textures.get? old.texture = some ct → ct.raw = some craw →
      ∀ ctx' calls, ctx.delete_render_pass p = some (ctx', calls) →
        ctx'.passes = ctx.passes.set p { old with gl_fb := none } ∧
        ctx'.passes.length = ctx.passes.length ∧
        ctx'.textures.length = ctx.textures.length ∧
        ctx'.shaders = ctx.shaders ∧ ctx'.pipelines = ctx.pipelines ∧
        ctx'.buffers = ctx.buffers) := by
  refine ⟨fun s => rfl, fun tex => rfl, ?_, ?_, ?_, ?_, ?_, ?_, ?_⟩
  · intro ty us data glb ctx' id trace h
    unfold QuadContext.new_buffer at h
    repeat' split at h
    all_goals
      first
        | (simp only [Option.some.injEq, Prod.mk.injEq] at h
           obtain ⟨hA, hB, -⟩ := h
           subst hA
           subst hB
           exact ⟨⟨_, rfl, rfl⟩, rfl, rfl, rfl, rfl, rfl⟩)
        | simp at h
  · intro ci ct fb hci
    rw [List.get?_eq_getElem?] at hci
    simp [QuadContext.new_render_pass, hci]
  · intro ci ct di dt fb hci hdi
    rw [List.get?_eq_getElem?] at hci hdi
    simp [QuadContext.new_render_pass, hci, hdi]
  · intro f bl attrs sh shint params layout hsh hlay
    rw [List.get?_eq_getElem?] at hsh
    simp [QuadContext.new_pipeline_with_params, hsh, hlay]
  · intro t old raw hget hraw
    rw [List.get?_eq_getElem?] at hget
    constructor
    · simp [QuadContext.delete_texture, hget, hraw]
    · simp
  · intro b old raw hget hraw
    rw [List.get?_eq_getElem?] at hget
    constructor
    · simp [QuadContext.delete_buffer, hget, hraw]
    · simp
  · intro p old fb ct craw hp hfb hct hcraw ctx' calls h
    unfold QuadContext.delete_render_pass QuadContext.delete_texture at h
    rw [hp] at h
    dsimp only at h
    rw [hfb, hct] at h
    dsimp only at h
    rw [hcraw] at h
    dsimp only at h
    cases hdt : old.depth_texture with
    | none =>
      rw [hdt] at h
      dsimp only at h
      simp only [Option.some.injEq, Prod.mk.injEq] at h
      obtain ⟨hA, -⟩ := h
      subst hA
      exact ⟨rfl, by simp, by simp, rfl, rfl, rfl⟩
    | some dt =>
      rw [hdt] at h
      dsimp only at h
      cases hdtex : (ctx.textures.set old.texture { raw := none, params := ct.params }).get? dt
          with
      | none =>
        rw [hdtex] at h
        dsimp only at h
        simp at h
      | some dtex =>
        rw [hdtex] at h
        dsimp only at h
        cases hdraw : dtex.raw with
        | none =>
          rw [hdraw] at h
          dsimp only at h
          simp at h
        | some draw2 =>
          rw [hdraw] at h
          dsimp only at h
          simp only [Option.some.injEq, Prod.mk.injEq] at h
          obtain ⟨hA, -⟩ := h
          subst hA
          exact ⟨rfl, by simp, by simp, rfl, rfl, rfl⟩

/-- Witness for resource_tables_append_and_clear: concrete create and delete
operations on small contexts. -/
theorem resource_tables_append_and_clear_witness :
    ctxS.new_shader (Except.ok sh0) =
      Except.ok ({ ctxS with shaders := ctxS.shaders ++ [sh0] }, 1) ∧
    ctx0.new_texture tex0 = ({ ctx0 with textures := [tex0] }, 0) ∧
    (Option.map (fun r => (r.1.buffers.length, r.2.1))
      (ctx0.new_buffer BufferType.VertexBuffer BufferUsage.Immutable
        (BufferSource.Empty 8 4) (some 2)) = some (1, 0)) ∧
    ctxA.new_render_pass 0 none (some 9) = some
      ({ ctxA with passes := ctxA.passes ++
          [{ gl_fb := some 9, texture := 0, depth_texture := none }] }, 1) ∧
    ctxD.new_render_pass 0 (some 1) (some 9) = some
      ({ ctxD with passes := ctxD.passes ++
          [{ gl_fb := some 9, texture := 0, depth_texture := some 1 }] }, 1) ∧
    ctxS.new_pipeline_with_params witF witBl witAttrs 0 PipelineParams.default =
      some ({ ctxS with pipelines := ctxS.pipelines ++
        [{ layout := (pipelineNew witF witBl witAttrs).getD [], shader := 0,
           params := PipelineParams.default }] }, 0) ∧
    ctxA.delete_texture 0 = some
      ({ ctxA with textures := ctxA.textures.set 0 { tex0 with raw := none } },
        [NativeCall.deleteTexture 7]) ∧
    ctxB.delete_buffer 0 = some
      ({ ctxB with
          buffers := ctxB.buffers.set 0 { buf0 with gl_buf := none },
          cache := (ctxB.cache.clear_buffer_bindings).1.clear_vertex_attributes },
        NativeCall.deleteBuffer 1 :: (ctxB.cache.clear_buffer_bindings).2) ∧
    ∃ ctx' calls, ctxA.delete_render_pass 0 = some (ctx', calls) ∧
      ctx'.passes = ctxA.passes.set 0
        { gl_fb := none, texture := 0, depth_texture := none } ∧
      ctx'.passes.length = ctxA.passes.length := by
  obtain ⟨w1, w2, w3, w4a, w4b, w5, w6, w7, w8⟩ := resource_tables_append_and_clear ctxS
  refine ⟨w1 sh0, (resource_tables_append_and_clear ctx0).2.1 tex0, ?_, ?_, ?_, ?_, ?_, ?_, ?_⟩
  · cases hres : ctx0.new_buffer BufferType.VertexBuffer BufferUsage.Immutable
        (BufferSource.Empty 8 4) (some 2) with
    | none => exact absurd hres (by decide)
    | some r =>
      obtain ⟨hrec, hid, -⟩ := (resource_tables_append_and_clear ctx0).2.2.1
        BufferType.VertexBuffer BufferUsage.Immutable (BufferSource.Empty 8 4) (some 2)
        r.1 r.2.1 r.2.2 (by rw [hres])
      obtain ⟨rec, -, hbufs⟩ := hrec
      simp [hbufs, hid]
      rfl
  · exact (resource_tables_append_and_clear ctxA).2.2.2.1 0 tex0 (some 9) rfl
  · exact (resource_tables_append_and_clear ctxD).2.2.2.2.1 0 tex0 1 tex1 (some 9) rfl rfl
  · exact w5 witF witBl witAttrs 0 sh0 PipelineParams.default
      ((pipelineNew witF witBl witAttrs).getD []) rfl (by decide)
  · exact ((resource_tables_append_and_clear ctxA).2.2.2.2.2.2.1 0 tex0 7 rfl rfl).1
  · exact ((resource_tables_append_and_clear ctxB).2.2.2.2.2.2.2.1 0 buf0 1 rfl rfl).1
  · refine ⟨_, _, rfl, ?_⟩
    have := (resource_tables_append_and_clear ctxA).2.2.2.2.2.2.2.2 0
      { gl_fb := some 5, texture := 0, depth_texture := none } 5 tex0 7 rfl rfl rfl rfl
    obtain ⟨h1, h2, -⟩ := this _ _ rfl
    exact ⟨h1, h2⟩

/-- With an unresolved location, writeAttrs writes nothing and only advances
the offset by size_bytes per iteration. -/
theorem writeAttrs_none (fmt : VertexFormat) (d s : Int) (bi : Nat) :
    ∀ rem i offset layout,
      writeAttrs none fmt d s bi i rem offset layout =
        some (offset + fmt.size_bytes * (rem : Int), layout) := by
  intro rem
  induction rem with
  | zero =>
    intro i offset layout
    simp [writeAttrs]
  | succ rem ih =>
    intro i offset layout
    rw [writeAttrs.eq_def]
    dsimp only
    rw [ih]
    congr 1
    push_cast
    ring_nf

/-- With a resolved location, writeAttrs leaves every slot outside the range
written by the remaining iterations untouched. -/
theorem writeAttrs_preserve (l : Nat) (fmt : VertexFormat) (d s : Int) (bi : Nat) :
    ∀ rem i offset layout o' layout',
      writeAttrs (some l) fmt d s bi i rem offset layout = some (o', layout') →
      ∀ p, (p < l + i ∨ l + i + rem ≤ p) → layout'[p]? = layout[p]? := by
  intro rem
  induction rem with
  | zero =>
    intro i offset layout o' layout' h p _
    simp only [writeAttrs, Option.some.injEq, Prod.mk.injEq] at h
    rw [← h.2]
  | succ rem ih =>
    intro i offset layout o' layout' h p hp
    rw [writeAttrs.eq_def] at h
    dsimp only at h
    split at h
    · have hrec := ih (i + 1) (offset + fmt.size_bytes) _ o' layout' h p (by omega)
      rw [hrec, List.getElem?_set_ne (by omega)]
    · exact absurd h (by simp)

/-- With a resolved location, writeAttrs fills the slots of the remaining
iterations with consecutive locations and offsets size_bytes apart. -/
theorem writeAttrs_writes (l : Nat) (fmt : VertexFormat) (d s : Int) (bi : Nat) :
    ∀ rem i offset layout o' layout',
      writeAttrs (some l) fmt d s bi i rem offset layout = some (o', layout') →
      ∀ j, j < rem →
        layout'[l + i + j]? = some (some
          { attr_loc := l + i + j, size := fmt.components, type_ := fmt.type_,
            offset := offset + fmt.size_bytes * (j : Int), stride := s,
            buffer_index := bi, divisor := d }) := by
  intro rem
  induction rem with
  | zero =>
    intro i offset layout o' layout' h j hj
    exact absurd hj (by omega)
  | succ rem ih =>
    intro i offset layout o' layout' h j hj
    rw [writeAttrs.eq_def] at h
    dsimp only at h
    split at h
    case isTrue hal =>
      cases j with
      | zero =>
        have hpres := writeAttrs_preserve l fmt d s bi rem (i + 1) (offset + fmt.size_bytes)
          _ o' layout' h (l + i) (by omega)
        rw [Nat.add_zero, hpres, List.getElem?_set_eq_of_lt _ hal]
        norm_num
      | succ j =>
        have hrec := ih (i + 1) (offset + fmt.size_bytes) _ o' layout' h j (by omega)
        have hidx : l + (i + 1) + j = l + i + (j + 1) := by omega
        have hofs : offset + fmt.size_bytes + fmt.size_bytes * (j : Int) =
            offset + fmt.size_bytes * ((j : Int) + 1) := by ring
        rw [hidx, hofs] at hrec
        rw [hrec]
        norm_num
    case isFalse => exact absurd h (by simp)

/-- Inversion of one processAttrs step: a successful run on a cons list
resolved both per-buffer lookups, ran writeAttrs with the Mat4 expansion
applied, and continued on the tail with the advanced offset. -/
theorem processAttrs_cons_inv (f : String → Option Nat) (bl : List BufferLayout)
    (cache : List BufferCacheData) (layout : List (Option VertexAttributeInternal))
    (a : VertexAttribute) (rest : List VertexAttribute)
    (cache' : List BufferCacheData) (layout' : List (Option VertexAttributeInternal))
    (h : processAttrs f bl cache layout (a :: rest) = some (cache', layout')) :
    ∃ bd ble off1 layout1,
      cache.get? a.buffer_index = some bd ∧
      bl.get? a.buffer_index = some ble ∧
      writeAttrs (f a.name)
        (if a.format = VertexFormat.Mat4 then VertexFormat.Float4 else a.format)
        (divisorOf ble) bd.stride a.buffer_index 0 (slotCount a.format) bd.offset layout =
        some (off1, layout1) ∧
      processAttrs f bl (cache.set a.buffer_index { bd with offset := off1 }) layout1 rest =
        some (cache', layout') := by
  rw [processAttrs.eq_def] at h
  dsimp only at h
  cases hcd : cache.get? a.buffer_index with
  | none => rw [hcd] at h; simp at h
  | some bd =>
    rw [hcd] at h
    cases hbl : bl.get? a.buffer_index with
    | none => rw [hbl] at h; simp at h
    | some ble =>
      rw [hbl] at h
      dsimp only at h
      by_cases hm : a.format = VertexFormat.Mat4
      · rw [if_pos hm] at h
        dsimp only at h
        cases hw : writeAttrs (f a.name) VertexFormat.Float4 (divisorOf ble) bd.stride
            a.buffer_index 0 4 bd.offset layout with
        | none => rw [hw] at h; simp at h
        | some pr =>
          obtain ⟨off1, layout1⟩ := pr
          rw [hw] at h
          dsimp only at h
          exact ⟨bd, ble, off1, layout1, rfl, rfl, by simp [hm, slotCount, hw], h⟩
      · rw [if_neg hm] at h
        dsimp only at h
        cases hw : writeAttrs (f a.name) a.format (divisorOf ble) bd.stride
            a.buffer_index 0 1 bd.offset layout with
        | none => rw [hw] at h; simp at h
        | some pr =>
          obtain ⟨off1, layout1⟩ := pr
          rw [hw] at h
          dsimp only at h
          exact ⟨bd, ble, off1, layout1, rfl, rfl, by simp [hm, slotCount, hw], h⟩

/-- processAttrs leaves a slot untouched when the slot ranges of all processed
attributes avoid it. -/
theorem processAttrs_preserve (f : String → Option Nat) (bl : List BufferLayout) (p : Nat) :
    ∀ attrs cache layout cache' layout',
      processAttrs f bl cache layout attrs = some (cache', layout') →
      (∀ a, a ∈ attrs → ∀ l, f a.name = some l → p < l ∨ l + slotCount a.format ≤ p) →
      layout'[p]? = layout[p]? := by
  intro attrs
  induction attrs with
  | nil =>
    intro cache layout cache' layout' h _
    simp only [processAttrs, Option.some.injEq, Prod.mk.injEq] at h
    rw [← h.2]
  | cons a rest ih =>
    intro cache layout cache' layout' h hav
    obtain ⟨bd, ble, off1, layout1, hcd, hbl, hw, hrest⟩ :=
      processAttrs_cons_inv f bl cache layout a rest cache' layout' h
    have h1 : layout1[p]? = layout[p]? := by
      cases hfa : f a.name with
      | none =>
        rw [hfa, writeAttrs_none] at hw
        simp only [Option.some.injEq, Prod.mk.injEq] at hw
        rw [← hw.2]
      | some l =>
        rw [hfa] at hw
        have hrange := hav a (List.mem_cons_self a rest) l hfa
        refine writeAttrs_preserve l _ _ _ _ _ 0 bd.offset layout off1 layout1 hw p ?_
        rcases hrange with hr | hr
        · left; omega
        · right; omega
    rw [ih _ _ _ _ hrest (fun a' ha' => hav a' (List.mem_cons_of_mem a ha')), h1]

/-- Processing an attribute list containing a Mat4 attribute whose name
resolves to loc, while every other attribute occupies slots disjoint from
[loc, loc+4), fills the four slots loc..loc+3 with consecutive 4-component
float entries 16 bytes apart carrying the divisor of the source buffer. -/
theorem processAttrs_mat4 (f : String → Option Nat) (bl : List BufferLayout)
    (nm : String) (bi loc : Nat) (ble : BufferLayout)
    (hloc : f nm = some loc) (hble : bl.get? bi = some ble) :
    ∀ attrs k cache layout cache' layout',
      processAttrs f bl cache layout attrs = some (cache', layout') →
      attrs.get? k = some { name := nm, format := VertexFormat.Mat4, buffer_index := bi } →
      (∀ j a', j ≠ k → attrs.get? j = some a' → ∀ l, f a'.name = some l →
        loc + 4 ≤ l ∨ l + slotCount a'.format ≤ loc) →
      ∃ o stride', ∀ i, i < 4 →
        layout'[loc + i]? = some (some
          { attr_loc := loc + i, size := 4, type_ := glow.FLOAT,
            offset := o + 16 * (i : Int), stride := stride', buffer_index := bi,
            divisor := divisorOf ble }) := by
  intro attrs
  induction attrs with
  | nil =>
    intro k cache layout cache' layout' _ hk
    simp at hk
  | cons a rest ih =>
    intro k cache layout cache' layout' h hk hdisj
    obtain ⟨bd, ble', off1, layout1, hcd, hbl, hw, hrest⟩ :=
      processAttrs_cons_inv f bl cache layout a rest cache' layout' h
    cases k with
    | zero =>
      have ha : a = { name := nm, format := VertexFormat.Mat4, buffer_index := bi } := by
        simpa using hk
      subst ha
      have hbe : ble' = ble := by
        rw [hble] at hbl
        exact (Option.some.inj hbl).symm
      simp only [slotCount, eq_self_iff_true, if_true] at hw
      rw [hloc, hbe] at hw
      have hwr := writeAttrs_writes loc VertexFormat.Float4 (divisorOf ble) bd.stride bi
        4 0 bd.offset layout off1 layout1 hw
      refine ⟨bd.offset, bd.stride, ?_⟩
      intro i hi
      have hpres : layout'[loc + i]? = layout1[loc + i]? := by
        refine processAttrs_preserve f bl (loc + i) rest _ _ _ _ hrest ?_
        intro a' ha' l hfl
        obtain ⟨j, hj⟩ := List.mem_iff_get?.mp ha'
        have hd := hdisj (j + 1) a' (by omega) (by simpa using hj) l hfl
        rcases hd with hr | hr
        · left; omega
        · right; omega
      rw [hpres]
      have hslot := hwr i hi
      rw [Nat.add_zero] at hslot
      simpa [VertexFormat.components, VertexFormat.type_, VertexFormat.size_bytes] using hslot
    | succ k' =>
      have hk' : rest.get? k' =
          some { name := nm, format := VertexFormat.Mat4, buffer_index := bi } := by
        simpa using hk
      refine ih k' _ _ cache' layout' hrest hk' ?_
      intro j a' hj hja l hfl
      exact hdisj (j + 1) a' (by omega) (by simpa using hja) l hfl

/-- C4: for every pipeline whose attribute list holds a Mat4 attribute on a
packed (stride 0) buffer, whose name the shader resolves to a location, and
whose other attributes resolve to slot ranges disjoint from the four slots at
that location (as GL guarantees for distinct active attributes), a successful
pipeline compilation puts exactly 4 consecutive entries in the per-slot table
at loc..loc+3, each a 4-component float entry, with byte offsets 16 apart,
and each with divisor 0 when the buffer step function is PerVertex (and the
configured step rate otherwise). -/
theorem pipeline_mat4_expansion (f : String → Option Nat) (bl : List BufferLayout)
    (attrs : List VertexAttribute) (k : Nat) (nm : String) (bi loc : Nat)
    (ble : BufferLayout) (layout : List (Option VertexAttributeInternal))
    (hk : attrs.get? k = some { name := nm, format := VertexFormat.Mat4, buffer_index := bi })
    (hble : bl.get? bi = some ble)
    (_hstride : ble.stride = 0)
    (hloc : f nm = some loc)
    (hdisj : ∀ j a', j < attrs.length → j ≠ k → attrs.get? j = some a' →
      ∀ l, f a'.name = some l → loc + 4 ≤ l ∨ l + slotCount a'.format ≤ loc)
    (hnew : pipelineNew f bl attrs = some layout) :
    ∃ o stride', ∀ i, i < 4 →
      layout[loc + i]? = some (some
        { attr_loc := loc + i, size := 4, type_ := glow.FLOAT,
          offset := o + 16 * (i : Int), stride := stride', buffer_index := bi,
          divisor := if ble.step_func = VertexStep.PerVertex then 0 else ble.step_rate }) := by
  unfold pipelineNew at hnew
  cases hcs : computeStrides bl
      (List.replicate bl.length { stride := 0, offset := 0 }) attrs with
  | none => rw [hcs] at hnew; simp at hnew
  | some cache =>
    rw [hcs] at hnew
    dsimp only at hnew
    cases hpa : processAttrs f bl cache
        (List.replicate ((attrs.map fun a => slotCount a.format).sum) none) attrs with
    | none => rw [hpa] at hnew; simp at hnew
    | some pr =>
      obtain ⟨cacheF, layoutF⟩ := pr
      rw [hpa] at hnew
      dsimp only at hnew
      have hlay : layoutF = layout := by simpa using hnew
      subst hlay
      have hmain := processAttrs_mat4 f bl nm bi loc ble hloc hble attrs k cache _
        cacheF layoutF hpa hk
        (fun j a' hj hja l hfl =>
          hdisj j a' (List.get?_eq_some.mp hja).1 hj hja l hfl)
      obtain ⟨o, stride', hslots⟩ := hmain
      refine ⟨o, stride', ?_⟩
      intro i hi
      rw [hslots i hi]
      have hdiv : divisorOf ble =
          if ble.step_func = VertexStep.PerVertex then 0 else ble.step_rate := by
        obtain ⟨st, sf, sr⟩ := ble
        cases sf <;> rfl
      rw [hdiv]

/-- Witness for pipeline_mat4_expansion: a single Mat4 attribute named m at
location 0 on a packed PerVertex buffer expands to four Float4 slots at
offsets 0, 16, 32, 48 with divisor 0. -/
theorem pipeline_mat4_expansion_witness :
    ∃ o stride', ∀ i, i < 4 →
      ((pipelineNew witF witBl witAttrs).getD []).get? (0 + i) = some (some
        { attr_loc := 0 + i, size := 4, type_ := glow.FLOAT,
          offset := o + 16 * (i : Int), stride := stride', buffer_index := 0,
          divisor := if VertexStep.PerVertex = VertexStep.PerVertex then 0 else 1 }) := by
  have h := pipeline_mat4_expansion witF witBl witAttrs 0 "m" 0 0
    { stride := 0, step_func := VertexStep.PerVertex, step_rate := 1 }
    ((pipelineNew witF witBl witAttrs).getD []) rfl rfl rfl (by decide)
    (fun j a' hj hjne hja l hfl =>
      absurd (by simp [witAttrs] at hj; omega : j = 0) hjne)
    (by decide)
  obtain ⟨o, stride', hs⟩ := h
  refine ⟨o, stride', ?_⟩
  intro i hi
  rw [List.get?_eq_getElem?]
  exact hs i hi

end Gfx
